import Mathlib

/-!
Shallow embedding of the `ToolBuilder` class of `src/tool-builder.ts`, together
with a model of the external schema-validation collaborator at the interface
the specification describes (merge with later-fragment precedence, validate
returning a parsed value or a structured failure).

Builder objects live in an explicit store modelling the JavaScript heap, so
that allocation, object identity and the absence of mutation are observable
facts rather than artifacts of a purely functional translation.  References are
indices into the store; `new ToolBuilder()` appends a fresh object.

The one behavioural subtlety of the source is preserved faithfully: `tool`
allocates a configured builder but returns the plain object literal
`{ build: this.build }`, so at the call `handle.build(ctx)` the receiver is the
handle literal itself, on which both `toolConfig` and `contextSchema` read as
`undefined`.
-/

namespace ToolBuilderSpec

/-- Field constraint of a context schema: the fragment of the external schema
language exercised by the repository (string fields and number fields). -/
inductive JType where
  | str
  | num
deriving DecidableEq, Repr

/-- A primitive context field value. -/
inductive JValue where
  | str (s : String)
  | num (n : Int)
deriving DecidableEq, Repr

/-- A concrete record-like context value, as an association list of fields. -/
abbrev ContextValue := List (String × JValue)

/-- A context schema: field name to field constraint.  Schemas built by the
repository carry at most one entry per key. -/
abbrev ContextSchema := List (String × JType)

/-- Property lookup on a record value; leftmost binding wins. -/
def lookupField : ContextValue → String → Option JValue
  | [], _ => none
  | (k, v) :: rest, key => if k = key then some v else lookupField rest key

/-- Lookup of a field constraint in a schema; leftmost binding wins. -/
def lookupType : ContextSchema → String → Option JType
  | [], _ => none
  | (k, t) :: rest, key => if k = key then some t else lookupType rest key

/-- Whether a concrete value satisfies a field constraint. -/
def checkType : JType → JValue → Bool
  | .str, .str _ => true
  | .num, .num _ => true
  | .str, .num _ => false
  | .num, .str _ => false

/-- The collaborator's validate operation, invoked by the source as
`this.contextSchema.parse(ctx)`: every declared field is checked against the
supplied value, collecting one structured issue per missing or mistyped field;
on success the parsed value is returned, namely the record restricted to the
schema's declared fields (unknown keys stripped). -/
def parseCtx (schema : ContextSchema) (ctx : ContextValue) :
    Except (List (String × String)) ContextValue :=
  let results := schema.map fun field =>
    match lookupField ctx field.1 with
    | none => Sum.inl (field.1, "Required")
    | some v =>
      if checkType field.2 v then Sum.inr (field.1, v)
      else Sum.inl (field.1, "Invalid type")
  let issues := results.filterMap fun r =>
    match r with | .inl i => some i | .inr _ => none
  if issues.isEmpty then
    .ok (results.filterMap fun r =>
      match r with | .inr p => some p | .inl _ => none)
  else
    .error issues

/-- The collaborator's merge operation, invoked by the source as
`this.contextSchema.extend(schema)`: field-level union in which the new
fragment's constraint overrides on name collision, keeping the base schema's
field order for overridden keys and appending the fragment's fresh keys. -/
def extendSchema (a b : ContextSchema) : ContextSchema :=
  (a.map fun p => match lookupType b p.1 with | some t => (p.1, t) | none => p)
    ++ b.filter fun q => (lookupType a q.1).isNone

/-- A tool definition: an opaque record the builder returns without inspecting;
the execute behaviour is represented by an opaque tag. -/
structure ToolDefinition where
  name : String
  description : String
  inputSchema : ContextSchema
  execute : String
deriving DecidableEq, Repr

/-- A tool source, `Tool | ((ctx) => Tool)`; the source's runtime
typeof-function test is this tag. -/
inductive ToolSource where
  | static (d : ToolDefinition)
  | fn (f : ContextValue → ToolDefinition)

/-- The errors build can throw: `Error("Tool not configured")` and the
validator's error carrying its structured issue list. -/
inductive BuildError where
  | configurationError (msg : String)
  | validationError (issues : List (String × String))
deriving DecidableEq, Repr

/-- The observable state of one `ToolBuilder` object: the private fields
`toolConfig` (initially `null`) and `contextSchema` (initially `undefined`);
both absent markers are falsy and are modelled as `none`. -/
structure ToolBuilderObj where
  toolConfig : Option ToolSource
  contextSchema : Option ContextSchema

/-- The heap of builder objects. -/
abbrev Store := List ToolBuilderObj

/-- A reference to a builder object: an index into the store. -/
abbrev Ref := Nat

/-- Property read through a reference. -/
def readRef (s : Store) (r : Ref) : Option ToolBuilderObj := s[r]?

/-- `new ToolBuilder()` followed by the constructor's field initialisation:
append a fresh object and return its reference. -/
def alloc (s : Store) (o : ToolBuilderObj) : Store × Ref := (s ++ [o], s.length)

/-- The module-level root instance, `const toolBuilder = new ToolBuilder()`. -/
def rootBuilder : ToolBuilderObj := ⟨none, none⟩

/-- The heap at module load: just the root instance, at reference 0. -/
def rootStore : Store := [rootBuilder]

/-- The receiver seen by `build` when invoked through the handle returned by
`tool`: the plain literal with only a `build` property, on which the reads of
`toolConfig` and `contextSchema` both yield `undefined`. -/
def handleObj : ToolBuilderObj := ⟨none, none⟩

/-- The body of the private `build` method, with `self` the value bound to
`this` at the call.  Absent `toolConfig` throws the configuration error; a
function source with a schema present validates `ctx`, propagates the
validation error on failure, and on success applies the function — to the raw
`ctx`, the parse result being discarded exactly as in the source; a function
source with no schema is applied directly; a static source is returned
unchanged with no validation. -/
def buildImpl (self : ToolBuilderObj) (ctx : ContextValue) :
    Except BuildError ToolDefinition :=
  match self.toolConfig with
  | none => .error (.configurationError "Tool not configured")
  | some (.fn f) =>
    match self.contextSchema with
    | some schema =>
      match parseCtx schema ctx with
      | .error issues => .error (.validationError issues)
      | .ok _parsed => .ok (f ctx)
    | none => .ok (f ctx)
  | some (.static d) => .ok d

/-- `withContext(schema)` on the builder at `r`: allocate a fresh builder whose
`contextSchema` is the receiver's schema extended by the fragment when one is
present and the fragment itself otherwise, and whose `toolConfig` is left at
its initial `null`.  The receiver is read, never written.  (The `getD` arm is
unreachable for references produced by the API; it totalises the heap read.) -/
def withContext (s : Store) (r : Ref) (schema : ContextSchema) : Store × Ref :=
  let self := (readRef s r).getD rootBuilder
  let merged : ContextSchema :=
    match self.contextSchema with
    | some cur => extendSchema cur schema
    | none => schema
  alloc s { toolConfig := none, contextSchema := some merged }

/-- `tool(config)` on the builder at `r`: allocate a fresh builder carrying the
config — which the returned value then abandons — and return the handle's
`build`, which at call time reads its state from the handle literal itself. -/
def toolOp (s : Store) (_r : Ref) (config : ToolSource) :
    Store × (ContextValue → Except BuildError ToolDefinition) :=
  let afterNew := alloc s { toolConfig := some config, contextSchema := none }
  (afterNew.1, fun ctx => buildImpl handleObj ctx)

/-- `build(ctx)` invoked with `this` bound to the builder at `r`.  The method
body contains no assignment, so the store comes back as it went in. -/
def buildM (s : Store) (r : Ref) (ctx : ContextValue) :
    Except BuildError ToolDefinition × Store :=
  (buildImpl ((readRef s r).getD rootBuilder) ctx, s)

/-- A chain of successive `withContext` calls starting at the builder at `r`. -/
def runWithContexts : Store → Ref → List ContextSchema → Store × Ref
  | s, r, [] => (s, r)
  | s, r, schema :: rest =>
    let p := withContext s r schema
    runWithContexts p.1 p.2 rest

/-- The README's static greet tool. -/
def greetTool : ToolDefinition :=
  { name := "greet", description := "Says hello",
    inputSchema := [("name", JType.str)], execute := "greet" }

/-- The README's context-dependent weather tool source. -/
def weatherToolFn (ctx : ContextValue) : ToolDefinition :=
  { name := "weather", description := "Gets weather info",
    inputSchema := [("location", JType.str)],
    execute :=
      match lookupField ctx "apiKey" with
      | some (JValue.str k) => "call:" ++ k
      | _ => "call:?" }

/-- A tool source that observes whether an undeclared field survived into the
context it received; it separates the raw context from the parsed one. -/
def probeToolFn (ctx : ContextValue) : ToolDefinition :=
  { name := "t",
    description :=
      match lookupField ctx "extra" with
      | some _ => "saw-extra"
      | none => "no-extra",
    inputSchema := [("q", JType.str)], execute := "probe" }

/-- A tool source over the merged-schema example's field. -/
def fieldAToolFn (ctx : ContextValue) : ToolDefinition :=
  { name := "ta", description := "uses a", inputSchema := [],
    execute :=
      match lookupField ctx "a" with
      | some (JValue.num _) => "num-a"
      | _ => "other-a" }

/-- A tool source that ignores its context. -/
def noCtxToolFn (_ctx : ContextValue) : ToolDefinition :=
  { name := "plain", description := "no context", inputSchema := [],
    execute := "plain" }

theorem readRef_append_lt (s t : Store) (i : Ref) (h : i < s.length) :
    readRef (s ++ t) i = readRef s i := by
  simp [readRef, List.getElem?_append, h]

theorem readRef_append_self (s : Store) (o : ToolBuilderObj) :
    readRef (s ++ [o]) s.length = some o := by
  simp [readRef]

theorem withContext_frame (s : Store) (r : Ref) (a : ContextSchema) (i : Ref)
    (h : i < s.length) :
    readRef (withContext s r a).1 i = readRef s i := by
  simp only [withContext, alloc]
  exact readRef_append_lt s _ i h

theorem withContext_newRef (s : Store) (r : Ref) (a : ContextSchema) :
    (withContext s r a).2 = s.length := by
  simp [withContext, alloc]

theorem withContext_length (s : Store) (r : Ref) (a : ContextSchema) :
    (withContext s r a).1.length = s.length + 1 := by
  simp [withContext, alloc]

theorem runWithContexts_keeps_toolConfig_none (schemas : List ContextSchema) :
    ∀ (s : Store) (r : Ref),
      (readRef s r).map ToolBuilderObj.toolConfig = some none →
      (readRef (runWithContexts s r schemas).1
          (runWithContexts s r schemas).2).map ToolBuilderObj.toolConfig
        = some none := by
  induction schemas with
  | nil => intro s r h; exact h
  | cons schema rest ih =>
    intro s r _h
    have hstep : (readRef (withContext s r schema).1
        (withContext s r schema).2).map ToolBuilderObj.toolConfig = some none := by
      simp only [withContext, alloc, readRef_append_self, Option.map_some']
    exact ih _ _ hstep

/-- C1: the spec's valid-context function-source example does not return
`f`(parsed ctx): the chain's build throws the configuration error, because the
handle returned by `tool` carries no tool configuration.  Moreover even the
`build` method body, given the configuration, applies the source function to
the raw context: the parse result — which differs from the raw context as soon
as an undeclared key is present — is discarded. -/
theorem chain_build_valid_ctx_throws :
    (toolOp (withContext rootStore 0 [("apiKey", JType.str)]).1
        (withContext rootStore 0 [("apiKey", JType.str)]).2
        (.fn probeToolFn)).2 [("apiKey", JValue.str "k")]
      = .error (.configurationError "Tool not configured")
    ∧ buildImpl ⟨some (.fn probeToolFn), some [("apiKey", JType.str)]⟩
        [("apiKey", JValue.str "k"), ("extra", JValue.num 1)]
      = .ok (probeToolFn [("apiKey", JValue.str "k"), ("extra", JValue.num 1)])
    ∧ parseCtx [("apiKey", JType.str)]
        [("apiKey", JValue.str "k"), ("extra", JValue.num 1)]
      = .ok [("apiKey", JValue.str "k")]
    ∧ probeToolFn [("apiKey", JValue.str "k"), ("extra", JValue.num 1)]
      ≠ probeToolFn [("apiKey", JValue.str "k")] :=
  ⟨rfl, rfl, rfl, by decide⟩

/-- C2: for every chain of withContext calls from the exported root followed by
`tool`, and for every source and context value, invoking the returned handle's
build raises the Tool-not-configured error: the handle object carries neither
tool configuration nor schema, so no chain produces a ToolDefinition. -/
theorem chain_build_always_not_configured
    (schemas : List ContextSchema) (cfg : ToolSource) (ctx : ContextValue) :
    (toolOp (runWithContexts rootStore 0 schemas).1
        (runWithContexts rootStore 0 schemas).2 cfg).2 ctx
      = .error (.configurationError "Tool not configured") := rfl

/-- C3: the static-source passthrough fails on the chain: `tool(d).build(ctx)`
throws the configuration error instead of returning `d`.  The method body
itself, when it holds the static source, does return `d` unchanged with no
validation even under a schema the context violates. -/
theorem static_source_chain_throws :
    (toolOp rootStore 0 (.static greetTool)).2 []
      = .error (.configurationError "Tool not configured")
    ∧ buildImpl ⟨some (.static greetTool), some [("apiKey", JType.str)]⟩ []
      = .ok greetTool :=
  ⟨rfl, rfl⟩

/-- C4: the exactly-when fails in one direction: build on a source-less builder
does throw the configuration error, but build after `tool` bound a source
throws the very same configuration error, because the handle lost the
configuration. -/
theorem configuration_error_not_exactly_unbound :
    (buildM rootStore 0 []).1
      = .error (.configurationError "Tool not configured")
    ∧ (toolOp rootStore 0 (.fn weatherToolFn)).2 [("apiKey", JValue.str "key")]
      = .error (.configurationError "Tool not configured") :=
  ⟨rfl, rfl⟩

/-- C5: an invalid context on a schema-bearing function-source chain does not
raise the validation error: the chain's build throws the configuration error
before any validation could run (the handle carries no schema either).  The
validator itself would have reported the structured missing-field issue. -/
theorem invalid_ctx_chain_throws_config_error :
    (toolOp (withContext rootStore 0 [("apiKey", JType.str)]).1
        (withContext rootStore 0 [("apiKey", JType.str)]).2
        (.fn weatherToolFn)).2 []
      = .error (.configurationError "Tool not configured")
    ∧ parseCtx [("apiKey", JType.str)] [] = .error [("apiKey", "Required")] :=
  ⟨rfl, rfl⟩

/-- C6: the schema merge itself behaves as claimed — the first fragment is
adopted as the initial schema, the second overrides on the colliding key, and
the merged schema accepts the number and rejects the string — but the build
that the claim says succeeds on the merged chain throws the configuration
error instead. -/
theorem merge_overrides_but_chain_build_throws :
    (readRef (withContext rootStore 0 [("a", JType.str)]).1
        (withContext rootStore 0 [("a", JType.str)]).2).map
        ToolBuilderObj.contextSchema = some (some [("a", JType.str)])
    ∧ (readRef (withContext (withContext rootStore 0 [("a", JType.str)]).1
          (withContext rootStore 0 [("a", JType.str)]).2 [("a", JType.num)]).1
        (withContext (withContext rootStore 0 [("a", JType.str)]).1
          (withContext rootStore 0 [("a", JType.str)]).2 [("a", JType.num)]).2).map
        ToolBuilderObj.contextSchema = some (some [("a", JType.num)])
    ∧ parseCtx [("a", JType.num)] [("a", JValue.num 5)]
      = .ok [("a", JValue.num 5)]
    ∧ parseCtx [("a", JType.num)] [("a", JValue.str "x")]
      = .error [("a", "Invalid type")]
    ∧ (toolOp (withContext (withContext rootStore 0 [("a", JType.str)]).1
          (withContext rootStore 0 [("a", JType.str)]).2 [("a", JType.num)]).1
        (withContext (withContext rootStore 0 [("a", JType.str)]).1
          (withContext rootStore 0 [("a", JType.str)]).2 [("a", JType.num)]).2
        (.fn fieldAToolFn)).2 [("a", JValue.num 5)]
      = .error (.configurationError "Tool not configured") :=
  ⟨rfl, rfl, rfl, rfl, rfl⟩

/-- C7: the no-schema function-source chain does not return `f`(ctx): its build
throws the configuration error.  The method body itself, when it holds the
function source and no schema, does apply the function directly to the given
context with no validation. -/
theorem no_context_chain_throws :
    (toolOp rootStore 0 (.fn noCtxToolFn)).2 []
      = .error (.configurationError "Tool not configured")
    ∧ buildImpl ⟨some (.fn noCtxToolFn), none⟩ [] = .ok (noCtxToolFn []) :=
  ⟨rfl, rfl⟩

/-- C8: withContext never mutates its receiver and derived builders are
independent: the first call leaves the builder at `r` unchanged, a second call
from the same base leaves the first derived builder unchanged, and the two
derived builders are distinct objects. -/
theorem withContext_is_persistent (s : Store) (r : Ref) (a b : ContextSchema)
    (hr : r < s.length) :
    readRef (withContext s r a).1 r = readRef s r
    ∧ readRef (withContext (withContext s r a).1 r b).1 (withContext s r a).2
      = readRef (withContext s r a).1 (withContext s r a).2
    ∧ (withContext s r a).2 ≠ (withContext (withContext s r a).1 r b).2 := by
  have h1 : (withContext s r a).2 < (withContext s r a).1.length := by
    simp [withContext, alloc]
  have h2 : (withContext s r a).2 ≠ (withContext (withContext s r a).1 r b).2 := by
    simp [withContext, alloc]
  exact ⟨withContext_frame s r a r hr, withContext_frame _ r b _ h1, h2⟩

/-- Witness for C8 at the root store and two colliding fragments. -/
theorem withContext_is_persistent_witness :
    0 < rootStore.length
    ∧ (readRef (withContext rootStore 0 [("a", JType.str)]).1 0
        = readRef rootStore 0
      ∧ readRef (withContext (withContext rootStore 0 [("a", JType.str)]).1 0
            [("a", JType.num)]).1 (withContext rootStore 0 [("a", JType.str)]).2
        = readRef (withContext rootStore 0 [("a", JType.str)]).1
            (withContext rootStore 0 [("a", JType.str)]).2
      ∧ (withContext rootStore 0 [("a", JType.str)]).2
        ≠ (withContext (withContext rootStore 0 [("a", JType.str)]).1 0
            [("a", JType.num)]).2) :=
  ⟨by decide,
   withContext_is_persistent rootStore 0 [("a", JType.str)] [("a", JType.num)]
     (by decide)⟩

/-- C9: build is side-effect-free with respect to builder state: it returns the
store unchanged, the builder it was invoked on reads back identically, and a
second call — with any context value — returns exactly what a fresh call on the
original store would, so repeated builds are independent of prior calls. -/
theorem build_no_mutation (s : Store) (r : Ref) (c1 c2 : ContextValue) :
    (buildM s r c1).2 = s
    ∧ readRef (buildM s r c1).2 r = readRef s r
    ∧ (buildM (buildM s r c1).2 r c2).1 = (buildM s r c2).1 :=
  ⟨rfl, rfl, rfl⟩

/-- C10: every builder reachable from the exported root by withContext calls
alone has an absent tool source: withContext constructs its result with
`toolConfig` at its initial `null` and never copies the receiver's. -/
theorem withContext_chain_has_no_toolConfig (schemas : List ContextSchema) :
    (readRef (runWithContexts rootStore 0 schemas).1
        (runWithContexts rootStore 0 schemas).2).map ToolBuilderObj.toolConfig
      = some none :=
  runWithContexts_keeps_toolConfig_none schemas rootStore 0 rfl

end ToolBuilderSpec
